import Mathlib

/-!
Formal model of `experiments/mnist_experiment/experiment_manager.py` from the
`boiler` repository: the `MnistExperiment` class, covering the forward-pass
loss computation, the diagnostic image sampler, the startup argument check,
and run-description generation.

Modelling conventions:
* floating-point tensor scalars are modelled as rationals (`ℚ`);
* an image is an abstract type `Img`; a batch is a `List Img`; a vector of
  per-example scalar values is a `List ℚ`;
* the model (`MnistVAE`) and the dataset manager live outside this repository,
  so they are modelled from the spec as explicit interface values;
* observable side effects (device transfers, image files written) are returned
  as explicit effect traces, and raised Python exceptions become `Except`
  errors or `Option` error components.
-/

/-- Scalar tensor values (torch floats) are modelled as rationals. -/
abbrev Scalar := ℚ

/-- Batch mean of a vector of per-example values, as in torch `Tensor.mean()`. -/
def listMean (l : List Scalar) : Scalar := l.sum / (l.length : ℚ)

/-- Modelled from the spec: the output mapping of one forward evaluation of the
external model collaborator (`MnistVAE`, not part of this repository), with
keys `sample`, `mean`, `elbo`, `nll`, `kl`; the three numeric fields are
per-example vectors. -/
structure ModelOutput (Img : Type) where
  sample : List Img
  mean : List Img
  elbo : List Scalar
  nll : List Scalar
  kl : List Scalar
deriving DecidableEq

/-- Modelled from the spec: the model collaborator interface the experiment
manager consumes: `forward(batch)`, `sample_prior(count)`, and the read-only
`global_step` counter. Per the spec, `forward` is a deterministic function of
the model (its parameters) and the batch. -/
structure Model (Img : Type) where
  forward : List Img → ModelOutput Img
  sample_prior : Nat → List Img
  global_step : Nat

/-- Observable side effects of the experiment manager: host-to-device batch
transfers (`x.to(self.device)`, content-preserving) and image files written by
`save_image` (filename together with the list of sub-images of the grid). -/
inductive Effect (Img : Type) where
  | toDevice (x : List Img)
  | writeImage (fname : String) (imgs : List Img)
deriving DecidableEq

/-- The image files written in an effect trace, in order. -/
def writesOf {Img : Type} (effs : List (Effect Img)) : List (String × List Img) :=
  effs.filterMap fun e =>
    match e with
    | Effect.toDevice _ => none
    | Effect.writeImage fname imgs => some (fname, imgs)

/-- The record returned by `MnistExperiment.forward_pass` (lines 57-65); the
field `elbo_elbo` models the dictionary key `elbo/elbo`, `elbo_recons` models
`elbo/recons`, and `elbo_kl` models `elbo/kl`. -/
structure ForwardOut (Img : Type) where
  out_sample : List Img
  out_mean : List Img
  loss : Scalar
  elbo_sep : List Scalar
  elbo_elbo : Scalar
  elbo_recons : Scalar
  elbo_kl : Scalar
deriving DecidableEq

/-- Lines 45-66, `MnistExperiment.forward_pass`: move the batch to the device,
run the model forward, and assemble the loss/metric record. Returns the record
together with the trace of side effects (the single device transfer of line
51). The optional label argument `y` is accepted but unused in the source, so
it is omitted here. -/
def forward_pass {Img : Type} (m : Model Img) (x : List Img) :
    ForwardOut Img × List (Effect Img) :=
  let out := m.forward x
  let elbo_sep := out.elbo
  let elbo := listMean elbo_sep
  let loss := - elbo
  ({ out_sample := out.sample
     out_mean := out.mean
     loss := loss
     elbo_sep := elbo_sep
     elbo_elbo := elbo
     elbo_recons := listMean out.nll
     elbo_kl := listMean out.kl }, [Effect.toDevice x])

/-- Lines 110-112: `torch.stack([x, recons])` of shape `(2, n_img, C, H, W)`,
then `permute(1, 0, 2, 3, 4)` to `(n_img, 2, C, H, W)`, then `reshape` to
`(n_img * 2, C, H, W)`: positionally pair the two lists of sub-images and
flatten, yielding the interleaving x0, r0, x1, r1, ... -/
def stack_permute_reshape {Img : Type} (xs ys : List Img) : List Img :=
  (List.zipWith (fun a b => [a, b]) xs ys).flatten

/-- Lines 100-114, `MnistExperiment.save_input_and_recons`: check the batch is
large enough (else `RuntimeError` with the message built on lines 103-104),
move the batch to the device, run `forward_pass`, keep the first `n_img`
inputs and reconstructed samples, interleave them, and save the grid image.
Returns the effect trace on success, the exception message on failure. -/
def save_input_and_recons {Img : Type} (m : Model Img) (x : List Img)
    (fname : String) (n : Nat) : Except String (List (Effect Img)) :=
  let n_img := n ^ 2 / 2
  if x.length < n_img then
    Except.error (toString n_img ++ " data points required, but given batch has size "
      ++ toString x.length ++ ". Please use a larger batch.")
  else
    let fp := forward_pass m x
    let x1 := x.take n_img
    let recons := fp.1.out_sample.take n_img
    let imgs := stack_permute_reshape x1 recons
    Except.ok (Effect.toDevice x :: fp.2 ++ [Effect.writeImage fname imgs])

/-- Models `os.path.join` on a POSIX system for a folder and a plain file name. -/
def os_path_join (folder fname : String) : String := folder ++ "/" ++ fname

/-- The errors the startup check of `_parse_args` can raise: `ZeroDivisionError`
from evaluating `%` with a zero divisor, or `AssertionError` from the `assert`
statement itself. -/
inductive PyError where
  | zeroDivisionError
  | assertionError
deriving DecidableEq

/-- Python `%` on integers: raises `ZeroDivisionError` when the divisor is
zero, and otherwise is floor-convention modulus (the result has the sign of
the divisor), which is `Int.fmod`. -/
def pyMod (a b : Int) : Except PyError Int :=
  if b = 0 then Except.error PyError.zeroDivisionError else Except.ok (Int.fmod a b)

/-- The parsed experiment configuration (`argparse.Namespace`), with the
defaults registered in `_parse_args` (lines 126-146). The `additional_descr`
and `dry_run` options are registered by the external `boilr` framework
(`add_required_args`); the spec lists dry-run mode and the free-text run
description, so they are included here with neutral defaults. -/
structure Args where
  batch_size : Int := 64
  test_batch_size : Int := 1000
  lr : Scalar := 1 / 1000
  seed : Int := 54321
  train_log_every : Int := 1000
  test_log_every : Int := 1000
  checkpoint_every : Int := 10000
  resume : String := ""
  loglikelihood_every : Int := 50000
  loglikelihood_samples : Int := 100
  weight_decay : Scalar := 0
  additional_descr : String := ""
  dry_run : Bool := false
deriving DecidableEq

/-- Line 150 of `_parse_args`: the startup invariant check
`assert args.loglikelihood_every % args.test_log_every == 0`, with Python `%`
semantics. Python first evaluates the `%` expression (which may raise
`ZeroDivisionError`) and only then the assertion. On success the parsed
arguments are returned unchanged. -/
def parse_args_check (args : Args) : Except PyError Args :=
  match pyMod args.loglikelihood_every args.test_log_every with
  | Except.error e => Except.error e
  | Except.ok r => if r = 0 then Except.ok args else Except.error PyError.assertionError

/-- Lines 154-167, `MnistExperiment._make_run_description`: build the string
`"seed<seed>"`, appending `",<additional_descr>"` only when the additional
description is non-empty. -/
def make_run_description (args : Args) : String :=
  let s := ""
  let s := s ++ "seed" ++ toString args.seed
  if 0 < args.additional_descr.length then s ++ "," ++ args.additional_descr else s

/-- Lines 69-97, `MnistExperiment.additional_testing`: read `global_step` once;
unless in dry-run mode, draw `n^2 = 64` prior samples and save them as
`sample_<step>.png`, then take the first test batch (raising `StopIteration`
when the test loader is empty) and save input/reconstruction pairs as
`reconstruction_<step>.png` via `save_input_and_recons`. Returns the trace of
effects actually performed before any exception, paired with the exception
message if one was raised. `testBatches` models the batches the test
dataloader yields, in order. -/
def additional_testing {Img : Type} (args : Args) (m : Model Img)
    (testBatches : List (List Img)) (img_folder : String) :
    List (Effect Img) × Option String :=
  let step := m.global_step
  if args.dry_run then ([], none)
  else
    let n := 8
    let sample := m.sample_prior (n ^ 2)
    let fname1 := os_path_join img_folder ("sample_" ++ toString step ++ ".png")
    let e1 := Effect.writeImage fname1 sample
    match testBatches with
    | [] => ([e1], some "StopIteration")
    | x :: _ =>
      let fname2 := os_path_join img_folder ("reconstruction_" ++ toString step ++ ".png")
      match save_input_and_recons m x fname2 n with
      | Except.error msg => ([e1], some msg)
      | Except.ok effs => (e1 :: effs, none)

/-- A concrete model over unit images used to instantiate theorems at concrete
inputs: `forward` maps an input batch to a valid per-example `ModelOutput`,
`sample_prior` yields the requested number of images, and `global_step` is 7. -/
def unitModel : Model Unit where
  forward := fun x =>
    { sample := x
      mean := x
      elbo := x.map fun _ => 1
      nll := x.map fun _ => 2
      kl := x.map fun _ => 3 }
  sample_prior := fun k => List.replicate k ()
  global_step := 7

/-- C1: the record returned by `forward_pass` satisfies
`loss = -mean(elbo)`, `elbo/elbo = mean(elbo) = -loss`,
`elbo/recons = mean(nll)`, and `elbo/kl = mean(kl)`, where `elbo`, `nll`, `kl`
are the per-example vectors of the model output. -/
theorem C1_forward_pass_metrics {Img : Type} (m : Model Img) (x : List Img) :
    (forward_pass m x).1.loss = - listMean (m.forward x).elbo ∧
    (forward_pass m x).1.elbo_elbo = listMean (m.forward x).elbo ∧
    (forward_pass m x).1.elbo_elbo = - (forward_pass m x).1.loss ∧
    (forward_pass m x).1.elbo_recons = listMean (m.forward x).nll ∧
    (forward_pass m x).1.elbo_kl = listMean (m.forward x).kl := by
  refine ⟨rfl, rfl, ?_, rfl, rfl⟩
  simp [forward_pass]

theorem stack_permute_reshape_nil_right {Img : Type} (xs : List Img) :
    stack_permute_reshape xs [] = [] := by
  cases xs <;> rfl

theorem stack_permute_reshape_cons {Img : Type} (a b : Img) (xs ys : List Img) :
    stack_permute_reshape (a :: xs) (b :: ys) = a :: b :: stack_permute_reshape xs ys := rfl

theorem stack_permute_reshape_length {Img : Type} (xs ys : List Img) :
    (stack_permute_reshape xs ys).length = 2 * min xs.length ys.length := by
  induction xs generalizing ys with
  | nil => simp [stack_permute_reshape]
  | cons a xs ih =>
    cases ys with
    | nil => simp [stack_permute_reshape_nil_right]
    | cons b ys =>
      simp only [stack_permute_reshape_cons, List.length_cons, ih]
      omega

theorem stack_permute_reshape_getElem {Img : Type} (xs ys : List Img) (i : Nat)
    (h : i < min xs.length ys.length) :
    (stack_permute_reshape xs ys)[2 * i]? = xs[i]? ∧
    (stack_permute_reshape xs ys)[2 * i + 1]? = ys[i]? := by
  induction xs generalizing ys i with
  | nil => simp at h
  | cons a xs ih =>
    cases ys with
    | nil => simp at h
    | cons b ys =>
      cases i with
      | zero => simp [stack_permute_reshape_cons]
      | succ i =>
        have hm : i < min xs.length ys.length := by
          simp only [List.length_cons, Nat.lt_min] at h ⊢
          omega
        have e1 : 2 * (i + 1) = 2 * i + 1 + 1 := by ring
        rw [stack_permute_reshape_cons, e1]
        simpa using ih ys i hm

theorem save_input_and_recons_ok {Img : Type} (m : Model Img) (x : List Img)
    (fname : String) (n : Nat) (h : ¬ x.length < n ^ 2 / 2) :
    save_input_and_recons m x fname n = Except.ok
      [Effect.toDevice x, Effect.toDevice x,
       Effect.writeImage fname (stack_permute_reshape (x.take (n ^ 2 / 2))
          ((m.forward x).sample.take (n ^ 2 / 2)))] := by
  simp [save_input_and_recons, h, forward_pass]

theorem save_grid_length {Img : Type} (m : Model Img) (x : List Img) (n : Nat)
    (hs : (m.forward x).sample.length = x.length) (hge : n ^ 2 / 2 ≤ x.length) :
    (stack_permute_reshape (x.take (n ^ 2 / 2))
        ((m.forward x).sample.take (n ^ 2 / 2))).length = 2 * (n ^ 2 / 2) := by
  rw [stack_permute_reshape_length, List.length_take, List.length_take, hs]
  omega

theorem sq_mod_two {n : Nat} (hn : n % 2 = 0) : n ^ 2 % 2 = 0 := by
  simp [Nat.pow_mod, hn]

/-- C4: the `elbo_sep` field returned by `forward_pass` is the model's
per-example ELBO vector passed through un-reduced, with exactly `b` entries,
for every batch of size `b ≥ 1` and model output with one value per example
in each numeric field. -/
theorem C4_elbo_sep_unreduced {Img : Type} (m : Model Img) (x : List Img)
    (_hb : 1 ≤ x.length)
    (helbo : (m.forward x).elbo.length = x.length)
    (_hnll : (m.forward x).nll.length = x.length)
    (_hkl : (m.forward x).kl.length = x.length) :
    (forward_pass m x).1.elbo_sep = (m.forward x).elbo ∧
    (forward_pass m x).1.elbo_sep.length = x.length :=
  ⟨rfl, helbo⟩

/-- Witness for C4 at the concrete model `unitModel` and a batch of size 1. -/
theorem C4_witness :
    (forward_pass unitModel [()]).1.elbo_sep = (unitModel.forward [()]).elbo ∧
    (forward_pass unitModel [()]).1.elbo_sep.length = [()].length :=
  C4_elbo_sep_unreduced unitModel [()] (by decide) (by decide) (by decide) (by decide)

/-- C2: `save_input_and_recons` raises an error exactly when the supplied batch
has fewer than `n^2 / 2` examples (32 for n = 8); the error message states the
required number `n^2 / 2` and the actual batch size; for a batch of size
exactly `n^2 / 2` it succeeds and writes one grid of exactly `n^2` sub-images. -/
theorem C2_save_input_and_recons_size_check {Img : Type} (m : Model Img)
    (x : List Img) (fname : String) (n : Nat) (hn : n % 2 = 0)
    (hs : (m.forward x).sample.length = x.length) :
    ((∃ e, save_input_and_recons m x fname n = Except.error e) ↔
      x.length < n ^ 2 / 2) ∧
    (x.length < n ^ 2 / 2 →
      save_input_and_recons m x fname n = Except.error
        (toString (n ^ 2 / 2) ++ " data points required, but given batch has size "
          ++ toString x.length ++ ". Please use a larger batch.")) ∧
    (x.length = n ^ 2 / 2 →
      ∃ effs, save_input_and_recons m x fname n = Except.ok effs ∧
        ∃ g, writesOf effs = [(fname, g)] ∧ g.length = n ^ 2) := by
  by_cases hlt : x.length < n ^ 2 / 2
  · have herr : save_input_and_recons m x fname n = Except.error
        (toString (n ^ 2 / 2) ++ " data points required, but given batch has size "
          ++ toString x.length ++ ". Please use a larger batch.") := by
      simp [save_input_and_recons, hlt]
    refine ⟨⟨fun _ => hlt, fun _ => ⟨_, herr⟩⟩, fun _ => herr, fun he => ?_⟩
    omega
  · have hok := save_input_and_recons_ok m x fname n hlt
    refine ⟨⟨fun ⟨e, he⟩ => ?_, fun h => absurd h hlt⟩, fun h => absurd h hlt,
      fun he => ⟨_, hok, ?_⟩⟩
    · rw [hok] at he
      exact absurd he (by simp)
    · refine ⟨stack_permute_reshape (x.take (n ^ 2 / 2))
        ((m.forward x).sample.take (n ^ 2 / 2)), by simp [writesOf], ?_⟩
      rw [save_grid_length m x n hs (le_of_not_lt hlt)]
      have h2 := sq_mod_two hn
      omega

/-- Witness for C2 at `unitModel`, n = 2 and a batch of size exactly
`2 ^ 2 / 2 = 2`. -/
theorem C2_witness :
    ((∃ e, save_input_and_recons unitModel [(), ()] "rec.png" 2 = Except.error e) ↔
      [(), ()].length < 2 ^ 2 / 2) ∧
    ([(), ()].length < 2 ^ 2 / 2 →
      save_input_and_recons unitModel [(), ()] "rec.png" 2 = Except.error
        (toString (2 ^ 2 / 2) ++ " data points required, but given batch has size "
          ++ toString [(), ()].length ++ ". Please use a larger batch.")) ∧
    ([(), ()].length = 2 ^ 2 / 2 →
      ∃ effs, save_input_and_recons unitModel [(), ()] "rec.png" 2 = Except.ok effs ∧
        ∃ g, writesOf effs = [("rec.png", g)] ∧ g.length = 2 ^ 2) :=
  C2_save_input_and_recons_size_check unitModel [(), ()] "rec.png" 2
    (by decide) (by decide)

/-- C5: for every evaluation batch with at least `n^2 / 2` examples (n even;
the code always uses n = 8), `save_input_and_recons` writes one grid of
exactly `n^2` sub-images in which, for each `i < n^2 / 2`, sub-image `2i` is
the i-th input of the batch and sub-image `2i + 1` is its reconstruction from
the forward-pass output; examples beyond the first `n^2 / 2` do not appear. -/
theorem C5_grid_interleaves {Img : Type} (m : Model Img) (x : List Img)
    (fname : String) (n : Nat) (hn : n % 2 = 0)
    (hs : (m.forward x).sample.length = x.length)
    (hx : n ^ 2 / 2 ≤ x.length) :
    ∃ effs, save_input_and_recons m x fname n = Except.ok effs ∧
      ∃ g, writesOf effs = [(fname, g)] ∧ g.length = n ^ 2 ∧
        ∀ i, i < n ^ 2 / 2 →
          g[2 * i]? = x[i]? ∧
          g[2 * i + 1]? = (forward_pass m x).1.out_sample[i]? := by
  have hlt : ¬ x.length < n ^ 2 / 2 := not_lt.mpr hx
  refine ⟨_, save_input_and_recons_ok m x fname n hlt,
    stack_permute_reshape (x.take (n ^ 2 / 2)) ((m.forward x).sample.take (n ^ 2 / 2)),
    by simp [writesOf], ?_, ?_⟩
  · rw [save_grid_length m x n hs hx]
    have h2 := sq_mod_two hn
    omega
  · intro i hi
    have hmin : i < min (x.take (n ^ 2 / 2)).length
        ((m.forward x).sample.take (n ^ 2 / 2)).length := by
      rw [List.length_take, List.length_take, hs]
      omega
    have h := stack_permute_reshape_getElem _ _ i hmin
    refine ⟨?_, ?_⟩
    · rw [h.1, List.getElem?_take_of_lt hi]
    · rw [h.2, List.getElem?_take_of_lt hi]
      rfl

/-- Witness for C5 at `unitModel`, n = 2 and a batch of size 2. -/
theorem C5_witness :
    ∃ effs, save_input_and_recons unitModel [(), ()] "rec.png" 2 = Except.ok effs ∧
      ∃ g, writesOf effs = [("rec.png", g)] ∧ g.length = 2 ^ 2 ∧
        ∀ i, i < 2 ^ 2 / 2 →
          g[2 * i]? = [(), ()][i]? ∧
          g[2 * i + 1]? = (forward_pass unitModel [(), ()]).1.out_sample[i]? :=
  C5_grid_interleaves unitModel [(), ()] "rec.png" 2 (by decide) (by decide) (by decide)

theorem fmod_eq_zero_iff_dvd (a b : Int) : Int.fmod a b = 0 ↔ b ∣ a := by
  constructor
  · intro h
    have h2 := Int.fmod_add_fdiv a b
    rw [h, zero_add] at h2
    exact ⟨a.fdiv b, h2.symm⟩
  · rintro ⟨c, rfl⟩
    rw [mul_comm]
    exact Int.mul_fmod_left c b

/-- C3 counterexample: with `loglikelihood_every = 0` and `test_log_every = 0`,
0 is an exact multiple of 0, yet the startup check does not succeed: it fails
with a `ZeroDivisionError`. -/
theorem C3_counterexample :
    ((0 : Int) ∣ (0 : Int)) ∧
    parse_args_check { loglikelihood_every := 0, test_log_every := 0 } =
      Except.error PyError.zeroDivisionError :=
  ⟨dvd_refl 0, rfl⟩

/-- C3 (amended): the startup check fails whenever `loglikelihood_every` is
not an exact multiple of `test_log_every`; when `test_log_every ≠ 0` it
succeeds exactly when the multiple condition holds (with a zero
`test_log_every` it always fails, raising a division error even though 0
would be a multiple of 0); in particular `loglikelihood_every = 100` with
`test_log_every = 30` fails the check, while `test_log_every = 50` passes. -/
theorem C3_parse_args_multiple_check (args : Args) (hz : args.test_log_every ≠ 0) :
    (parse_args_check args = Except.ok args ↔
      args.test_log_every ∣ args.loglikelihood_every) ∧
    (¬ args.test_log_every ∣ args.loglikelihood_every →
      parse_args_check args = Except.error PyError.assertionError) ∧
    parse_args_check { loglikelihood_every := 100, test_log_every := 30 } =
      Except.error PyError.assertionError ∧
    parse_args_check { loglikelihood_every := 100, test_log_every := 50 } =
      Except.ok { loglikelihood_every := 100, test_log_every := 50 } := by
  have hmod : parse_args_check args =
      (if Int.fmod args.loglikelihood_every args.test_log_every = 0 then
        Except.ok args else Except.error PyError.assertionError) := by
    simp [parse_args_check, pyMod, hz]
  refine ⟨?_, ?_, rfl, rfl⟩
  · rw [hmod]
    by_cases hd : Int.fmod args.loglikelihood_every args.test_log_every = 0
    · simp [hd, (fmod_eq_zero_iff_dvd _ _).mp hd]
    · simp only [hd, if_neg, if_false]
      constructor
      · intro h
        exact absurd h (by simp)
      · intro hdvd
        exact absurd ((fmod_eq_zero_iff_dvd _ _).mpr hdvd) hd
  · intro hnd
    rw [hmod, if_neg]
    intro h0
    exact hnd ((fmod_eq_zero_iff_dvd _ _).mp h0)

/-- Witness for C3 at `loglikelihood_every = 100`, `test_log_every = 50`. -/
theorem C3_witness :
    (parse_args_check { loglikelihood_every := 100, test_log_every := 50 } =
        Except.ok { loglikelihood_every := 100, test_log_every := 50 } ↔
      (50 : Int) ∣ 100) ∧
    (¬ (50 : Int) ∣ 100 →
      parse_args_check { loglikelihood_every := 100, test_log_every := 50 } =
        Except.error PyError.assertionError) ∧
    parse_args_check { loglikelihood_every := 100, test_log_every := 30 } =
      Except.error PyError.assertionError ∧
    parse_args_check { loglikelihood_every := 100, test_log_every := 50 } =
      Except.ok { loglikelihood_every := 100, test_log_every := 50 } :=
  C3_parse_args_multiple_check { loglikelihood_every := 100, test_log_every := 50 }
    (by decide)

/-- C6: run-description generation is deterministic in the pair (seed,
additional description), returns `"seed<seed>"` followed by
`",<description>"` exactly when the description is non-empty, and in
particular yields `"seed54321"` for seed 54321 with the empty description and
`"seed54321,foo"` with description `"foo"`. -/
theorem C6_run_description (a b : Args) (h1 : a.seed = b.seed)
    (h2 : a.additional_descr = b.additional_descr) :
    make_run_description a = make_run_description b ∧
    make_run_description a = "seed" ++ toString a.seed ++
      (if 0 < a.additional_descr.length then "," ++ a.additional_descr else "") ∧
    make_run_description { seed := 54321, additional_descr := "" } = "seed54321" ∧
    make_run_description { seed := 54321, additional_descr := "foo" } = "seed54321,foo" := by
  refine ⟨by simp [make_run_description, h1, h2], ?_, rfl, rfl⟩
  by_cases hd : 0 < a.additional_descr.length
  · simp [make_run_description, hd, String.empty_append, String.append_assoc]
  · simp [make_run_description, hd, String.empty_append, String.append_empty]

/-- Witness for C6 at two argument records agreeing on seed and description. -/
theorem C6_witness :
    make_run_description { seed := 54321, additional_descr := "foo" } =
      make_run_description { seed := 54321, additional_descr := "foo", dry_run := true } ∧
    make_run_description { seed := 54321, additional_descr := "foo" } =
      "seed" ++ toString (54321 : Int) ++
        (if 0 < ("foo" : String).length then "," ++ "foo" else "") ∧
    make_run_description { seed := 54321, additional_descr := "" } = "seed54321" ∧
    make_run_description { seed := 54321, additional_descr := "foo" } = "seed54321,foo" :=
  C6_run_description { seed := 54321, additional_descr := "foo" }
    { seed := 54321, additional_descr := "foo", dry_run := true } rfl rfl

/-- C7: `forward_pass` is pure: its only side effect is the device transfer of
the input batch (in particular it writes no image files), and it is a
function of the batch and the model alone: two invocations with the same
batch and the same model (hence the same parameters) return equal records. -/
theorem C7_forward_pass_pure {Img : Type} (m m2 : Model Img) (x x2 : List Img)
    (hm : m2 = m) (hx : x2 = x) :
    (forward_pass m x).2 = [Effect.toDevice x] ∧
    writesOf (forward_pass m x).2 = [] ∧
    forward_pass m2 x2 = forward_pass m x := by
  subst hm
  subst hx
  exact ⟨rfl, rfl, rfl⟩

/-- Witness for C7 at `unitModel` and a batch of size 1. -/
theorem C7_witness :
    (forward_pass unitModel [()]).2 = [Effect.toDevice [()]] ∧
    writesOf (forward_pass unitModel [()]).2 = [] ∧
    forward_pass unitModel [()] = forward_pass unitModel [()] :=
  C7_forward_pass_pure unitModel unitModel [()] [()] rfl rfl

/-- C8: in dry-run mode, `additional_testing` writes zero image files (indeed
performs no effects at all and raises nothing), for every model, every supply
of test batches, and every target folder. -/
theorem C8_dry_run_writes_nothing {Img : Type} (args : Args) (m : Model Img)
    (testBatches : List (List Img)) (img_folder : String)
    (hd : args.dry_run = true) :
    writesOf (additional_testing args m testBatches img_folder).1 = [] ∧
    additional_testing args m testBatches img_folder = ([], none) := by
  refine ⟨?_, ?_⟩ <;> simp [additional_testing, hd, writesOf]

/-- Witness for C8 at `unitModel` with dry-run enabled. -/
theorem C8_witness :
    writesOf (additional_testing { dry_run := true } unitModel [[()]] "img").1 = [] ∧
    additional_testing { dry_run := true } unitModel [[()]] "img" = ([], none) :=
  C8_dry_run_writes_nothing { dry_run := true } unitModel [[()]] "img" rfl

/-- C9 counterexample: with dry-run off and a first test batch of only 31 < 32
examples, `additional_testing` writes exactly one image file (the prior-sample
grid) and then raises, so it does not write exactly two image files. -/
theorem C9_counterexample :
    (writesOf (additional_testing { dry_run := false } unitModel
        [List.replicate 31 ()] "img").1).length = 1 ∧
    (additional_testing { dry_run := false } unitModel
        [List.replicate 31 ()] "img").2.isSome = true := by
  decide

/-- C9 (amended): every non-dry-run invocation of `additional_testing` whose
first test batch has at least `8^2 / 2 = 32` examples writes exactly two image
files into the caller-supplied folder, named `sample_<step>.png` and
`reconstruction_<step>.png` where `<step>` is the model's `global_step`
counter read once at the start (both filenames carry the same step value); if
the first test batch is smaller, only `sample_<step>.png` is written and the
invocation raises an error. -/
theorem C9_two_image_files {Img : Type} (args : Args) (m : Model Img)
    (x : List Img) (rest : List (List Img)) (img_folder : String)
    (hd : args.dry_run = false) (hx : 8 ^ 2 / 2 ≤ x.length) :
    ∃ g, writesOf (additional_testing args m (x :: rest) img_folder).1 =
        [(os_path_join img_folder ("sample_" ++ toString m.global_step ++ ".png"),
          m.sample_prior (8 ^ 2)),
         (os_path_join img_folder ("reconstruction_" ++ toString m.global_step ++ ".png"),
          g)] ∧
      (additional_testing args m (x :: rest) img_folder).2 = none := by
  have hlt : ¬ x.length < 8 ^ 2 / 2 := not_lt.mpr hx
  have hok := save_input_and_recons_ok m x
    (os_path_join img_folder ("reconstruction_" ++ toString m.global_step ++ ".png")) 8 hlt
  refine ⟨stack_permute_reshape (x.take (8 ^ 2 / 2))
    ((m.forward x).sample.take (8 ^ 2 / 2)), ?_, ?_⟩ <;>
    simp [additional_testing, hd, hok, writesOf]

/-- Witness for C9 at `unitModel` with a first test batch of exactly 32
examples. -/
theorem C9_witness :
    ∃ g, writesOf (additional_testing { dry_run := false } unitModel
        (List.replicate 32 () :: []) "img").1 =
        [(os_path_join "img" ("sample_" ++ toString unitModel.global_step ++ ".png"),
          unitModel.sample_prior (8 ^ 2)),
         (os_path_join "img" ("reconstruction_" ++ toString unitModel.global_step ++ ".png"),
          g)] ∧
      (additional_testing { dry_run := false } unitModel
        (List.replicate 32 () :: []) "img").2 = none :=
  C9_two_image_files { dry_run := false } unitModel (List.replicate 32 ()) [] "img"
    rfl (by decide)

/-- C10: the startup invariant check is only well-defined for a non-zero
`test_log_every`: when `test_log_every = 0`, evaluating the Python modulus
itself raises a `ZeroDivisionError` instead of the assertion failure, for
every value of `loglikelihood_every` (and of the other options). -/
theorem C10_zero_test_log_every (args : Args) (hz : args.test_log_every = 0) :
    parse_args_check args = Except.error PyError.zeroDivisionError := by
  simp [parse_args_check, pyMod, hz]

/-- Witness for C10 at `test_log_every = 0` and the default
`loglikelihood_every = 50000`. -/
theorem C10_witness :
    parse_args_check { test_log_every := 0 } = Except.error PyError.zeroDivisionError :=
  C10_zero_test_log_every { test_log_every := 0 } rfl
